import Mathlib

/-!
Verification of `scripts/check_prs_contains_and_comment.py`.

The script is a single sequential CLI program: it resolves a GitHub token,
fetches a repository handle, iterates the pull requests in a requested state,
classifies each PR by whether a target branch already contains all of its
commits (via one three-way comparison per PR), and posts a status comment on
the PRs that qualify.

The embedding below is shallow: the external GitHub API is modelled as an
oracle (`World` / `PrOracle`) supplying, for each network call the script
makes, either its successful result or the exception it raises.  The script
itself is translated into pure Lean functions over those oracles; its
observable behaviour (stdout lines, stderr lines, network calls, exit) is
collected into a trace of `Effect`s.
-/

namespace CheckPrs

/-- A single quote character (U+0027), used when mirroring Python string
formatting that places values inside single quotes. -/
def sq : String := String.singleton (Char.ofNat 39)

/-- Mirrors how Python prints a `bool` inside an f-string: `True` / `False`. -/
def pyBoolStr (b : Bool) : String := if b then "True" else "False"

/-- Mirrors Python `repr` of a string as used by `{pr.title!r}` for titles
that contain no quote or escape characters: the text wrapped in single
quotes. -/
def pyRepr (s : String) : String := sq ++ s ++ sq

/-- The attributes of a pull request that the script reads:
`pr.number`, `pr.title`, `pr.base.ref`, `pr.head.ref`, `pr.head.sha`. -/
structure PullRequest where
  number : Nat
  title : String
  base_ref : String
  head_ref : String
  head_sha : String
  deriving DecidableEq, Repr

/-- The ordered list of environment variables probed by
`read_token_from_environment` (source lines 18-23). -/
def candidate_env_vars : List String :=
  ["GITHUB_TOKEN", "GH_TOKEN", "GITHUB_PAT", "TOKEN"]

/-- The loop body of `read_token_from_environment`: for each variable name in
order, `os.environ.get` (modelled by `env : String → Option String`, `none`
when unset) is consulted; the first truthy value (set and non-empty) is
returned.  A variable that is unset or set to the empty string is skipped. -/
def readTokenFromVars (env : String → Option String) : List String → Option String
  | [] => none
  | v :: rest =>
    match env v with
    | some token => if token != "" then some token else readTokenFromVars env rest
    | none => readTokenFromVars env rest

/-- `read_token_from_environment` (source lines 17-28): probe
`candidate_env_vars` in order and return the first non-empty value, else
`None`. -/
def read_token_from_environment (env : String → Option String) : Option String :=
  readTokenFromVars env candidate_env_vars

/-- The token selected by `get_github_client` (source lines 31-39):
`token = explicit_token or read_token_from_environment()`.  Python truthiness
means a `None` or empty-string explicit token falls through to the
environment lookup.  The result is `none` exactly when the script prints the
missing-token error and exits with status 2; otherwise `some t` is the token
the `Github` client is constructed with. -/
def get_github_client (explicit_token : Option String)
    (env : String → Option String) : Option String :=
  match explicit_token with
  | some t => if t != "" then some t else read_token_from_environment env
  | none => read_token_from_environment env

/-- `contains_all_pr_commits` (source lines 42-50), with the network part of
`repo.compare(base=target_branch, head=pr.head.sha)` factored out: given the
`status` string of the comparison result, the function returns
`status in ("behind", "identical")`. -/
def contains_all_pr_commits (status : String) : Bool :=
  status == "behind" || status == "identical"

/-- One observable action of the script: a line on standard output, a line on
standard error, a network call made through the GitHub client, or a call to
`sys.exit`. -/
inductive Effect where
  | stdout (line : String)
  | stderr (line : String)
  | network (call : String)
  | exitCode (code : Nat)
  deriving DecidableEq, Repr

instance {ε α : Type} [DecidableEq ε] [DecidableEq α] : DecidableEq (Except ε α) := fun x y =>
  match x, y with
  | Except.ok a, Except.ok b =>
    if h : a = b then isTrue (by rw [h]) else isFalse (by intro hc; cases hc; exact h rfl)
  | Except.ok _, Except.error _ => isFalse (by intro hc; cases hc)
  | Except.error _, Except.ok _ => isFalse (by intro hc; cases hc)
  | Except.error a, Except.error b =>
    if h : a = b then isTrue (by rw [h]) else isFalse (by intro hc; cases hc; exact h rfl)

/-- The oracle for the two network calls made per pull request:
`repo.compare(...)` either raises (`error` with the exception text) or yields
a comparison result whose `status` string is returned, and
`pr.create_issue_comment(...)` either raises or succeeds. -/
structure PrOracle where
  compareResult : Except String String
  commentResult : Except String Unit
  deriving DecidableEq, Repr

/-- One element of the sequence yielded by `repo.get_pulls(state=...)`: the
pull request record together with the outcomes of the network calls the
script would make for it. -/
structure PrItem where
  pr : PullRequest
  oracle : PrOracle
  deriving DecidableEq, Repr

/-- The oracle for the run-level network calls: `gh.get_repo(args.repo)`
either raises (`error` with the exception text) or succeeds, and
`repo.get_pulls(state=...)` yields the listed pull requests. -/
structure World where
  repoResult : Except String Unit
  pulls : List PrItem
  deriving DecidableEq, Repr

/-- The parsed CLI arguments (source lines 54-83): positional `repo`,
`branch`, `status`; `--state` (already defaulted to `"open"` by argparse when
absent) and optional `--token`. -/
structure Args where
  repo : String
  branch : String
  status : String
  state : String
  token : Option String
  deriving DecidableEq, Repr

/-- The missing-token error printed by `get_github_client` (source lines
34-37). -/
def noTokenMsg : String :=
  "ERROR: No GitHub token provided. Set GITHUB_TOKEN (or GH_TOKEN) or pass --token."

/-- The fatal error printed when `gh.get_repo` raises (source line 89). -/
def repoFailMsg (repo err : String) : String :=
  "ERROR: Could not access repo " ++ sq ++ repo ++ sq ++ ": " ++ err

/-- The stderr diagnostic printed when the comparison for a PR raises
(source lines 105-108). -/
def compareFailLine (pr : PullRequest) (err : String) : String :=
  "PR #" ++ toString pr.number ++ ": compare failed [" ++ pr.base_ref
    ++ " <- " ++ pr.head_ref ++ "]: " ++ err

/-- The stderr diagnostic printed when commenting on a contained PR raises
(source lines 117-120). -/
def commentFailLine (pr : PullRequest) (err : String) : String :=
  "PR #" ++ toString pr.number ++ ": contains all commits, but commenting failed: " ++ err

/-- The per-PR summary line printed to standard output (source lines
125-128). -/
def summaryLine (pr : PullRequest) (is_contained : Bool) (result : String) : String :=
  "PR #" ++ toString pr.number ++ " [" ++ pr.base_ref ++ " <- " ++ pr.head_ref
    ++ "] " ++ pyRepr pr.title ++ ": contained=" ++ pyBoolStr is_contained
    ++ " -> " ++ result

/-- The final totals line (source lines 130-132). -/
def doneLine (processed commented : Nat) : String :=
  "Done. Processed " ++ toString processed ++ " PR(s); commented on "
    ++ toString commented ++ " PR(s)."

/-- The `for pr in pulls` loop of `main` (source lines 100-128), carrying the
`processed_count` and `commented_count` accumulators and returning the final
counts together with the trace of effects the loop produces.  `txt` is
`args.status`, the comment body. -/
def runPRs (txt : String) (processed commented : Nat) :
    List PrItem → Nat × Nat × List Effect
  | [] => (processed, commented, [])
  | it :: rest =>
    let processed := processed + 1
    match it.oracle.compareResult with
    | Except.error e =>
      let r := runPRs txt processed commented rest
      (r.1, r.2.1,
        Effect.network "compare" :: Effect.stderr (compareFailLine it.pr e) :: r.2.2)
    | Except.ok compStatus =>
      let is_contained := contains_all_pr_commits compStatus
      match is_contained with
      | true =>
        match it.oracle.commentResult with
        | Except.ok _ =>
          let r := runPRs txt processed (commented + 1) rest
          (r.1, r.2.1,
            Effect.network "compare"
              :: Effect.network ("create_issue_comment " ++ txt)
              :: Effect.stdout (summaryLine it.pr is_contained "commented")
              :: r.2.2)
        | Except.error ce =>
          let r := runPRs txt processed commented rest
          (r.1, r.2.1,
            Effect.network "compare"
              :: Effect.network ("create_issue_comment " ++ txt)
              :: Effect.stderr (commentFailLine it.pr ce)
              :: Effect.stdout (summaryLine it.pr is_contained "comment_failed")
              :: r.2.2)
      | false =>
        let r := runPRs txt processed commented rest
        (r.1, r.2.1,
          Effect.network "compare"
            :: Effect.stdout (summaryLine it.pr is_contained "not_contained")
            :: r.2.2)

/-- The result of a whole run: either a fatal startup exit (missing token or
inaccessible repository, both `sys.exit(2)`), or a completed run with its
final `processed_count` and `commented_count`.  Each constructor carries the
full effect trace. -/
inductive RunOutcome where
  | fatal (code : Nat) (effects : List Effect)
  | completed (processed commented : Nat) (effects : List Effect)
  deriving DecidableEq, Repr

/-- `main` (source lines 53-132) after argument parsing: resolve the token,
fetch the repository handle, print the header, list the pull requests, run
the loop and print the totals line. -/
def main_run (args : Args) (env : String → Option String) (w : World) : RunOutcome :=
  match get_github_client args.token env with
  | none => RunOutcome.fatal 2 [Effect.stderr noTokenMsg, Effect.exitCode 2]
  | some _ =>
    match w.repoResult with
    | Except.error e =>
      RunOutcome.fatal 2
        [Effect.network "get_repo", Effect.stderr (repoFailMsg args.repo e),
         Effect.exitCode 2]
    | Except.ok _ =>
      let r := runPRs args.status 0 0 w.pulls
      RunOutcome.completed r.1 r.2.1
        (Effect.network "get_repo"
          :: Effect.stdout ("Repository: " ++ args.repo)
          :: Effect.stdout ("Target branch: " ++ args.branch)
          :: Effect.stdout ("PR state: " ++ args.state)
          :: Effect.network "get_pulls"
          :: (r.2.2 ++ [Effect.stdout (doneLine r.1 r.2.1)]))

/-- The effect trace of a run outcome. -/
def RunOutcome.effects : RunOutcome → List Effect
  | RunOutcome.fatal _ effs => effs
  | RunOutcome.completed _ _ effs => effs

/-- The final `processed_count` of a run, `none` on a fatal startup exit. -/
def RunOutcome.processedCount : RunOutcome → Option Nat
  | RunOutcome.fatal _ _ => none
  | RunOutcome.completed p _ _ => some p

/-- The final `commented_count` of a run, `none` on a fatal startup exit. -/
def RunOutcome.commentedCount : RunOutcome → Option Nat
  | RunOutcome.fatal _ _ => none
  | RunOutcome.completed _ c _ => some c

/-- Spec-side predicate for the C4 refinement, following the spec words
"the first variable holding a non-empty value": the variable is set and its
value is non-empty. -/
def env_var_nonempty (env : String → Option String) (v : String) : Bool :=
  match env v with
  | some t => t != ""
  | none => false

/-- Spec-side lookup for the C4 refinement, following the spec words
"probe a fixed, ordered list of environment variable names and return the
first one holding a non-empty value": find the first qualifying variable in
`candidate_env_vars` and return its value; `none` when no variable
qualifies. -/
def spec_token_lookup (env : String → Option String) : Option String :=
  match candidate_env_vars.find? (env_var_nonempty env) with
  | some v => env v
  | none => none

/-- Spec-side predicate for the C7 refinement, following the spec words
"both classification succeeded as contained and comment posting succeeded":
the comparison call returned a status classified as contained, and the
comment call succeeded. -/
def spec_should_comment (o : PrOracle) : Bool :=
  match o.compareResult with
  | Except.error _ => false
  | Except.ok s =>
    contains_all_pr_commits s &&
      (match o.commentResult with
       | Except.ok _ => true
       | Except.error _ => false)

/-- Whether an effect is a line on standard output. -/
def isStdoutEffect : Effect → Bool
  | Effect.stdout _ => true
  | _ => false

/-- The `result` string the loop assigns to a PR whose comparison succeeded
with status `s`: `"commented"`, `"comment_failed"` or `"not_contained"`. -/
def resultFor (o : PrOracle) (s : String) : String :=
  match contains_all_pr_commits s with
  | true =>
    match o.commentResult with
    | Except.ok _ => "commented"
    | Except.error _ => "comment_failed"
  | false => "not_contained"

/-- The standard-output summary line the loop prints for a PR whose
comparison succeeded with status `s`. -/
def summaryFor (it : PrItem) (s : String) : String :=
  summaryLine it.pr (contains_all_pr_commits s) (resultFor it.oracle s)

theorem runPRs_fst (txt : String) (l : List PrItem) :
    ∀ p c : Nat, (runPRs txt p c l).1 = p + l.length := by
  induction l with
  | nil => intro p c; simp [runPRs]
  | cons it rest ih =>
    intro p c
    simp only [runPRs]
    cases hcmp : it.oracle.compareResult with
    | error e => simp [ih]; omega
    | ok s =>
      cases hcont : contains_all_pr_commits s with
      | true =>
        cases hcom : it.oracle.commentResult with
        | ok u => simp [hcont, hcom, ih]; omega
        | error ce => simp [hcont, hcom, ih]; omega
      | false => simp [hcont, ih]; omega

theorem runPRs_commented (txt : String) (l : List PrItem) :
    ∀ p c : Nat,
      (runPRs txt p c l).2.1 = c + l.countP (fun it => spec_should_comment it.oracle) := by
  induction l with
  | nil => intro p c; simp [runPRs]
  | cons it rest ih =>
    intro p c
    simp only [runPRs, List.countP_cons]
    cases hcmp : it.oracle.compareResult with
    | error e => simp [ih, spec_should_comment, hcmp]
    | ok s =>
      cases hcont : contains_all_pr_commits s with
      | true =>
        cases hcom : it.oracle.commentResult with
        | ok u => simp [ih, spec_should_comment, hcmp, hcont, hcom]; omega
        | error ce => simp [ih, spec_should_comment, hcmp, hcont, hcom]
      | false => simp [ih, spec_should_comment, hcmp, hcont]

theorem runPRs_stdout (txt : String) (l : List PrItem) :
    ∀ p c : Nat,
      (runPRs txt p c l).2.2.filter isStdoutEffect
        = l.filterMap (fun it =>
            match it.oracle.compareResult with
            | Except.ok s => some (Effect.stdout (summaryFor it s))
            | Except.error _ => none) := by
  induction l with
  | nil => intro p c; simp [runPRs]
  | cons it rest ih =>
    intro p c
    simp only [runPRs, List.filterMap_cons]
    cases hcmp : it.oracle.compareResult with
    | error e => simp [ih, isStdoutEffect]
    | ok s =>
      cases hcont : contains_all_pr_commits s with
      | true =>
        cases hcom : it.oracle.commentResult with
        | ok u =>
          simp [ih, isStdoutEffect, summaryFor, resultFor, hcont, hcom]
        | error ce =>
          simp [ih, isStdoutEffect, summaryFor, resultFor, hcont, hcom]
      | false =>
        simp [ih, isStdoutEffect, summaryFor, resultFor, hcont]

/-- Sample pull request records used by the concrete witnesses below. -/
def prOne : PullRequest :=
  { number := 1, title := "First change", base_ref := "main",
    head_ref := "feat-one", head_sha := "aaa111" }

def prTwo : PullRequest :=
  { number := 2, title := "Second change", base_ref := "main",
    head_ref := "feat-two", head_sha := "bbb222" }

def prThree : PullRequest :=
  { number := 3, title := "Third change", base_ref := "main",
    head_ref := "feat-three", head_sha := "ccc333" }

def prFour : PullRequest :=
  { number := 4, title := "Fourth change", base_ref := "main",
    head_ref := "feat-four", head_sha := "ddd444" }

/-- A PR whose comparison call raises. -/
def itemCompareFail : PrItem :=
  { pr := prOne,
    oracle := { compareResult := Except.error "boom", commentResult := Except.ok () } }

/-- A PR whose comparison yields `identical` and whose comment call succeeds. -/
def itemIdentical : PrItem :=
  { pr := prTwo,
    oracle := { compareResult := Except.ok "identical", commentResult := Except.ok () } }

/-- A PR whose comparison yields `ahead`. -/
def itemAhead : PrItem :=
  { pr := prThree,
    oracle := { compareResult := Except.ok "ahead", commentResult := Except.ok () } }

/-- A PR whose comparison yields `behind` but whose comment call raises. -/
def itemBehindCommentFail : PrItem :=
  { pr := prFour,
    oracle := { compareResult := Except.ok "behind", commentResult := Except.error "denied" } }

/-- An environment with no variables set. -/
def emptyEnv : String → Option String := fun _ => none

/-- An environment with only `GITHUB_TOKEN` set, to a non-empty value. -/
def envGithubToken : String → Option String :=
  fun v => if v = "GITHUB_TOKEN" then some "env-token" else none

/-- Sample CLI arguments with no `--token`. -/
def argsNoToken : Args :=
  { repo := "acme/widgets", branch := "release/qa", status := "in qa",
    state := "open", token := none }

/-- Sample CLI arguments with `--token` given as the empty string. -/
def argsEmptyToken : Args := { argsNoToken with token := some "" }

/-- Sample CLI arguments with a non-empty `--token`. -/
def argsWithToken : Args := { argsNoToken with token := some "cli-token" }

/-- A world with an accessible repository and three listed PRs. -/
def worldThree : World :=
  { repoResult := Except.ok (),
    pulls := [itemIdentical, itemAhead, itemBehindCommentFail] }

/-- A world with an accessible repository and one PR whose comparison
raises. -/
def worldCompareFail : World :=
  { repoResult := Except.ok (), pulls := [itemCompareFail] }

/-- C1: the containment classifier returns `contained = true` exactly when
the comparison status is `identical` or `behind`, and `false` when it is
`ahead` or `diverged`. -/
theorem claim_C1 (s : String) :
    (contains_all_pr_commits s = true ↔ (s = "behind" ∨ s = "identical"))
      ∧ contains_all_pr_commits "identical" = true
      ∧ contains_all_pr_commits "behind" = true
      ∧ contains_all_pr_commits "ahead" = false
      ∧ contains_all_pr_commits "diverged" = false := by
  refine ⟨?_, by decide, by decide, by decide, by decide⟩
  simp [contains_all_pr_commits]

/-- C2: when the comparison call for the first PR in the remaining sequence
raises, the loop emits the compare stderr diagnostic for it (with its number
and branch names), produces no other effect for it, and continues with the
remaining PRs exactly as it would have, still counting the failed PR as
processed. -/
theorem claim_C2 (txt : String) (p c : Nat) (it : PrItem) (rest : List PrItem)
    (e : String) (h : it.oracle.compareResult = Except.error e) :
    runPRs txt p c (it :: rest)
      = ((runPRs txt (p + 1) c rest).1, (runPRs txt (p + 1) c rest).2.1,
          Effect.network "compare" :: Effect.stderr (compareFailLine it.pr e)
            :: (runPRs txt (p + 1) c rest).2.2)
      ∧ (runPRs txt p c (it :: rest)).1 = p + 1 + rest.length := by
  constructor
  · simp [runPRs, h]
  · rw [runPRs_fst]
    simp
    omega

/-- Witness for C2 at a concrete input: a run over a compare-failing PR
followed by one more PR still processes both. -/
theorem claim_C2_witness :
    (runPRs "in qa" 0 0 (itemCompareFail :: [itemIdentical])).1 = 2 := by
  have h := claim_C2 "in qa" 0 0 itemCompareFail [itemIdentical] "boom" rfl
  rw [h.2]
  decide

/-- C3 as stated is false: with `--token` supplied as the empty string and
`GITHUB_TOKEN` set, the token used is the environment one, not the supplied
one. -/
theorem claim_C3_counterexample :
    get_github_client (some "") envGithubToken = some "env-token"
      ∧ ("env-token" : String) ≠ "" := by
  exact ⟨by decide, by decide⟩

/-- C3 (amended): whenever the explicit `--token` argument is supplied with a
non-empty value, that token is the one used, regardless of the
environment. -/
theorem claim_C3 (t : String) (env : String → Option String) (h : t ≠ "") :
    get_github_client (some t) env = some t := by
  simp [get_github_client, h]

/-- Witness for C3 at a concrete input: a non-empty CLI token wins even with
`GITHUB_TOKEN` set. -/
theorem claim_C3_witness :
    get_github_client (some "cli-token") envGithubToken = some "cli-token" :=
  claim_C3 "cli-token" envGithubToken (by decide)

/-- C4: with no explicit token, the lookup probes exactly the ordered list
[GITHUB_TOKEN, GH_TOKEN, GITHUB_PAT, TOKEN] and returns the value of the
first variable holding a non-empty value, `none` when no variable does. -/
theorem claim_C4 (env : String → Option String) :
    candidate_env_vars = ["GITHUB_TOKEN", "GH_TOKEN", "GITHUB_PAT", "TOKEN"]
      ∧ read_token_from_environment env = spec_token_lookup env := by
  refine ⟨rfl, ?_⟩
  simp only [read_token_from_environment, spec_token_lookup]
  induction candidate_env_vars with
  | nil => simp [readTokenFromVars]
  | cons v rest ih =>
    simp only [readTokenFromVars, List.find?]
    cases hv : env v with
    | none => simpa [env_var_nonempty, hv] using ih
    | some t =>
      cases ht : (t != "") with
      | true => simp [env_var_nonempty, hv, ht]
      | false => simpa [env_var_nonempty, hv, ht] using ih

/-- C5: when no token source yields a value, the run is a fatal exit with
status 2 whose only effects are the stderr error and the exit itself; in
particular no network call of any kind occurs. -/
theorem claim_C5 (args : Args) (env : String → Option String) (w : World)
    (h : get_github_client args.token env = none) :
    main_run args env w
        = RunOutcome.fatal 2 [Effect.stderr noTokenMsg, Effect.exitCode 2]
      ∧ ∀ c : String, Effect.network c ∉ (main_run args env w).effects := by
  have hm : main_run args env w
      = RunOutcome.fatal 2 [Effect.stderr noTokenMsg, Effect.exitCode 2] := by
    simp [main_run, h]
  refine ⟨hm, ?_⟩
  intro c
  rw [hm]
  simp [RunOutcome.effects]

/-- Witness for C5 at a concrete input: no `--token` and an empty
environment. -/
theorem claim_C5_witness :
    main_run argsNoToken emptyEnv worldThree
        = RunOutcome.fatal 2 [Effect.stderr noTokenMsg, Effect.exitCode 2]
      ∧ ∀ c : String,
          Effect.network c ∉ (main_run argsNoToken emptyEnv worldThree).effects :=
  claim_C5 argsNoToken emptyEnv worldThree rfl

/-- C6: on any run that reaches the PR loop (token resolved, repository
accessible), the processed count equals the number of PRs yielded by the
listing, and the final totals line reports exactly that count. -/
theorem claim_C6 (args : Args) (env : String → Option String) (w : World)
    (t : String) (h1 : get_github_client args.token env = some t)
    (h2 : w.repoResult = Except.ok ()) :
    (main_run args env w).processedCount = some w.pulls.length
      ∧ Effect.stdout
            (doneLine w.pulls.length ((runPRs args.status 0 0 w.pulls).2.1))
          ∈ (main_run args env w).effects := by
  have hp := runPRs_fst args.status w.pulls 0 0
  constructor
  · simp [main_run, h1, h2, RunOutcome.processedCount, hp]
  · simp [main_run, h1, h2, RunOutcome.effects, hp]

/-- Witness for C6 at a concrete input: a run over three listed PRs reports
three processed. -/
theorem claim_C6_witness :
    (main_run argsWithToken emptyEnv worldThree).processedCount = some 3 := by
  have h := claim_C6 argsWithToken emptyEnv worldThree "cli-token" rfl rfl
  rw [h.1]
  decide

/-- C7: on any run that reaches the PR loop, the commented count equals the
number of listed PRs whose comparison succeeded with a contained status and
whose comment call succeeded. -/
theorem claim_C7 (args : Args) (env : String → Option String) (w : World)
    (t : String) (h1 : get_github_client args.token env = some t)
    (h2 : w.repoResult = Except.ok ()) :
    (main_run args env w).commentedCount
      = some (w.pulls.countP (fun it => spec_should_comment it.oracle)) := by
  have hc := runPRs_commented args.status w.pulls 0 0
  simp [main_run, h1, h2, RunOutcome.commentedCount, hc]

/-- Witness for C7 at a concrete input: of three PRs (identical with comment
success, ahead, behind with comment failure) exactly one is commented. -/
theorem claim_C7_witness :
    (main_run argsWithToken emptyEnv worldThree).commentedCount = some 1 := by
  have h := claim_C7 argsWithToken emptyEnv worldThree "cli-token" rfl rfl
  rw [h]
  decide

/-- C8 as stated is false: a processed PR whose comparison call raises gets
no standard-output summary line at all — the run over one such PR counts it
as processed, yet its whole stdout is the three header lines and the totals
line, with no per-PR line. -/
theorem claim_C8_counterexample :
    (main_run argsWithToken emptyEnv worldCompareFail).processedCount = some 1
      ∧ (main_run argsWithToken emptyEnv worldCompareFail).effects.filter isStdoutEffect
          = [Effect.stdout "Repository: acme/widgets",
             Effect.stdout "Target branch: release/qa",
             Effect.stdout "PR state: open",
             Effect.stdout (doneLine 1 0)] := by
  exact ⟨by decide, by decide⟩

/-- C8 (amended): the loop prints exactly one summary line, in the documented
format, for each processed PR whose comparison call succeeds — including PRs
whose comment posting fails — and no standard-output line for a PR whose
comparison call raises (that PR only gets a stderr diagnostic). -/
theorem claim_C8 (txt : String) (p c : Nat) (l : List PrItem) :
    (runPRs txt p c l).2.2.filter isStdoutEffect
      = l.filterMap (fun it =>
          match it.oracle.compareResult with
          | Except.ok s => some (Effect.stdout (summaryFor it s))
          | Except.error _ => none) :=
  runPRs_stdout txt l p c

/-- C9: a PR classified as contained whose comment call raises ends with
outcome `comment_failed`, its error is logged to stderr with the PR number,
the commented count is not incremented, and the loop continues with the
remaining PRs exactly as it would have. -/
theorem claim_C9 (txt : String) (p c : Nat) (it : PrItem) (rest : List PrItem)
    (s e : String) (h1 : it.oracle.compareResult = Except.ok s)
    (h2 : contains_all_pr_commits s = true)
    (h3 : it.oracle.commentResult = Except.error e) :
    runPRs txt p c (it :: rest)
      = ((runPRs txt (p + 1) c rest).1, (runPRs txt (p + 1) c rest).2.1,
          Effect.network "compare"
            :: Effect.network ("create_issue_comment " ++ txt)
            :: Effect.stderr (commentFailLine it.pr e)
            :: Effect.stdout (summaryLine it.pr true "comment_failed")
            :: (runPRs txt (p + 1) c rest).2.2) := by
  simp [runPRs, h1, h2, h3]

/-- Witness for C9 at a concrete input: one contained PR with a failing
comment call yields outcome `comment_failed` and a commented count of
zero. -/
theorem claim_C9_witness :
    runPRs "in qa" 0 0 [itemBehindCommentFail]
      = (1, 0,
          [Effect.network "compare",
           Effect.network "create_issue_comment in qa",
           Effect.stderr (commentFailLine itemBehindCommentFail.pr "denied"),
           Effect.stdout (summaryLine itemBehindCommentFail.pr true "comment_failed")]) := by
  have h := claim_C9 "in qa" 0 0 itemBehindCommentFail [] "behind" "denied" rfl rfl rfl
  rw [h]
  rfl

/-- C10: an explicit `--token` given as the empty string does not take
precedence — the token used is the environment lookup, the whole run behaves
exactly as if `--token` had not been given, and when the environment yields
nothing the run is the fatal status-2 exit. -/
theorem claim_C10 (args : Args) (env : String → Option String) (w : World)
    (h : args.token = some "") :
    get_github_client args.token env = read_token_from_environment env
      ∧ main_run args env w = main_run { args with token := none } env w
      ∧ (read_token_from_environment env = none →
          main_run args env w
            = RunOutcome.fatal 2 [Effect.stderr noTokenMsg, Effect.exitCode 2]) := by
  have hg : get_github_client args.token env = read_token_from_environment env := by
    rw [h]
    simp [get_github_client]
  refine ⟨hg, ?_, ?_⟩
  · simp only [main_run]
    rw [hg]
    rfl
  · intro hn
    simp [main_run, hg, hn]

/-- Witness for C10 at a concrete input: `--token` given as the empty string
with an empty environment is the fatal status-2 exit. -/
theorem claim_C10_witness :
    main_run argsEmptyToken emptyEnv worldThree
      = RunOutcome.fatal 2 [Effect.stderr noTokenMsg, Effect.exitCode 2] := by
  have h := claim_C10 argsEmptyToken emptyEnv worldThree rfl
  exact h.2.2 rfl

end CheckPrs
